import Mathlib

/-!
Verification development for the PDAL `filters.covariancefeatures` stage
(`CovarianceFeaturesFilter.cpp`).  The per-point pipeline
`setDimensionality` (neighbor selection, covariance eigendecomposition,
eigenvalue clamping/scaling, feature formulas), the option-parsing state
left by `addArgs`, the dimension registration of `addDimensions`, and the
thread-range partitioning of `filter` are embedded as pure Lean functions
over real numbers.  C++ `double` arithmetic is modelled by exact real
arithmetic; operations whose IEEE result is NaN (here: `0 * log 0` inside
the Eigenentropy formula) are modelled with `Option`, `none` standing for
an undefined (NaN) value.  Spatial-index queries and the Eigen solver are
external collaborators and enter as an abstract environment (`Env`).
-/

namespace CovFeat

/-- C++ conversion of a (possibly negative) `int` to `size_t`, as performed by
the cast `(size_t)m_minK` in the insufficient-neighbor test: reduction
modulo 2^64. -/
def castSizeT (m : Int) : Nat := (m % (2 ^ 64 : Int)).toNat

/-- Fatal per-point errors raised by `setDimensionality` via `throwError`:
the Eigen solver did not converge (`"Cannot perform eigen decomposition."`),
or every clamped eigenvalue is zero
(`"Eigenvalues are all 0. Can't compute local features."`). -/
inductive PErr where
  | decompFail
  | degenerate
  deriving DecidableEq, Repr

/-- Result of processing one point: either the ordered list of
`(dimension name, value)` writes performed on the point's feature slots
(`none` as a value stands for a NaN write), or a fatal error.  An `err`
outcome carries no writes: in the source both `throwError` calls happen
before any `setField`. -/
inductive Outcome where
  | ok (writes : List (String × Option ℝ))
  | err (e : PErr)

/-- Output of the Eigen `SelfAdjointEigenSolver` on the neighborhood
covariance matrix: convergence flag (`solver.info() == Success`),
eigenvalues in the solver's native ascending order
(`ev[0] <= ev[1] <= ev[2]`), and the eigenvector columns
`v1 = col(2)`, `v2 = col(1)`, `v3 = col(0)` read off by the source. -/
structure SolverResult where
  ok : Bool
  ev0 : ℝ
  ev1 : ℝ
  ev2 : ℝ
  v1 : ℝ × ℝ × ℝ
  v2 : ℝ × ℝ × ℝ
  v3 : ℝ × ℝ × ℝ

/-- External collaborators of one `setDimensionality` call: the point's
`OptimalKNN` / `OptimalRadius` field values, the KD-tree queries
(`kdi.neighbors(p, k, stride)` and `kdi.radius(p, radius)`), and the
covariance + eigendecomposition of a neighbor id list
(`math::computeCovariance` followed by `SelfAdjointEigenSolver`). -/
structure Env where
  kopt : Nat
  ropt : ℝ
  knnQuery : Nat → Nat → List Nat
  radiusQuery : ℝ → List Nat
  solve : List Nat → SolverResult

/-- Filter state read by `setDimensionality`: the option members set by
`addArgs` and the dimension map filled by `addDimensions`.  The member
`m_radiusArg` is an `Arg*`; `radiusArg = some b` models a pointer assigned
to the radius `Arg` whose set-flag is `b`, while `radiusArg = none` models
the pointer never having been assigned (its value indeterminate), in which
case evaluating `m_radiusArg->set()` is undefined behavior. -/
structure Config where
  knn : Int
  stride : Nat
  radius : ℝ
  minK : Int
  mode : String
  optimal : Bool
  radiusArg : Option Bool
  extraDims : List String

/-- Eigenvalue extraction of lines 190-192: given the solver's ascending
eigenvalues, build `lambda = (max ev2 0, max ev1 0, max ev0 0)` -- the
triple reordered largest-first with negatives clamped to 0. -/
def clampDescending (ev0 ev1 ev2 : ℝ) : ℝ × ℝ × ℝ :=
  (max ev2 0, max ev1 0, max ev0 0)

/-- Scale-mode transform applied to the `lambda` triple: `"SQRT"` takes
elementwise square roots, `"NORM"` divides elementwise by `sum` (the sum
captured before any transform), and any other mode string leaves the
triple unchanged (the source has no error checking on `m_mode`). -/
noncomputable def scaleTriple (mode : String) (sum : ℝ) (l : ℝ × ℝ × ℝ) :
    ℝ × ℝ × ℝ :=
  if mode = "SQRT" then (Real.sqrt l.1, Real.sqrt l.2.1, Real.sqrt l.2.2)
  else if mode = "NORM" then (l.1 / sum, l.2.1 / sum, l.2.2 / sum)
  else l

/-- Linearity formula `(lambda[0] - lambda[1]) / lambda[0]`. -/
noncomputable def linearity (l : ℝ × ℝ × ℝ) : ℝ := (l.1 - l.2.1) / l.1

/-- Planarity formula `(lambda[1] - lambda[2]) / lambda[0]`. -/
noncomputable def planarity (l : ℝ × ℝ × ℝ) : ℝ := (l.2.1 - l.2.2) / l.1

/-- Scattering formula `lambda[2] / lambda[0]`. -/
noncomputable def scattering (l : ℝ × ℝ × ℝ) : ℝ := l.2.2 / l.1

/-- Verticality: the z component of the per-axis weighted sum
`lambda[0]*|v1| + lambda[1]*|v2| + lambda[2]*|v3|`, divided by that
vector's Euclidean norm.  Real division is used for the final quotient;
the norm is nonzero whenever the weighted vector is nonzero. -/
noncomputable def verticality (l : ℝ × ℝ × ℝ) (v1 v2 v3 : ℝ × ℝ × ℝ) : ℝ :=
  let u0 := l.1 * |v1.1| + l.2.1 * |v2.1| + l.2.2 * |v3.1|
  let u1 := l.1 * |v1.2.1| + l.2.1 * |v2.2.1| + l.2.2 * |v3.2.1|
  let u2 := l.1 * |v1.2.2| + l.2.1 * |v2.2.2| + l.2.2 * |v3.2.2|
  u2 / Real.sqrt (u0 * u0 + u1 * u1 + u2 * u2)

/-- Omnivariance formula `cbrt(lambda[2] * lambda[1] * lambda[0])`,
modelled as the real cube root via sign and absolute value. -/
noncomputable def omnivariance (l : ℝ × ℝ × ℝ) : ℝ :=
  let p := l.2.2 * l.2.1 * l.1
  Real.sign p * |p| ^ ((1 : ℝ) / 3)

/-- Term `x * std::log(x)` of the Eigenentropy sum.  For `x > 0` the IEEE
double result is the (rounded) real value; for `x = 0`, `std::log(0)` is
`-inf` and `0 * -inf` is NaN, and for `x < 0` the logarithm itself is NaN,
so both are modelled as `none` (undefined). -/
noncomputable def xLogX (x : ℝ) : Option ℝ :=
  if 0 < x then some (x * Real.log x) else none

/-- Eigenentropy formula of lines 269-271:
`-(l2*log(l2) + l1*log(l1) + l0*log(l0))`, with no guard for zero
eigenvalues -- any zero (or negative) argument makes the whole expression
undefined (NaN). -/
noncomputable def eigenentropyCode (l0 l1 l2 : ℝ) : Option ℝ :=
  match xLogX l2, xLogX l1, xLogX l0 with
  | some a, some b, some c => some (-(a + b + c))
  | _, _, _ => none

/-- Guarded entropy term: `x * ln(x)` with the value at `x = 0` defined as
its limit 0, as the specification requires of the producer. -/
noncomputable def guardedXLogX (x : ℝ) : ℝ :=
  if x = 0 then 0 else x * Real.log x

/-- Eigenentropy as the specification states it: each term `li * ln(li)`
is guarded as 0 when `li = 0` (its limit value), so the result is the
finite sum `-Σ li*ln(li)` over the nonzero eigenvalues. -/
noncomputable def eigenentropyGuarded (l0 l1 l2 : ℝ) : ℝ :=
  -(guardedXLogX l2 + guardedXLogX l1 + guardedXLogX l0)

/-- Anisotropy formula `(lambda[0] - lambda[2]) / lambda[0]`. -/
noncomputable def anisotropy (l : ℝ × ℝ × ℝ) : ℝ := (l.1 - l.2.2) / l.1

/-- SurfaceVariation formula `lambda[2] / sum`, where `lambda[2]` is the
third component of the (possibly scaled) triple and `sum` is the
pre-transform eigenvalue sum captured at line 193. -/
noncomputable def surfaceVariation (l2 sum : ℝ) : ℝ := l2 / sum

/-- DemantkeVerticality formula `1 - |e3.z|`, `e3` being the eigenvector
column of the smallest eigenvalue (`eigenvectors().col(0)`). -/
noncomputable def demantkeVerticality (v3 : ℝ × ℝ × ℝ) : ℝ := 1 - |v3.2.2|

/-- Density formula as written in the source:
`(kopt + 1) / ((4 / 3) * pi * pow(ropt, 3))`.  The literals `4` and `3`
are C++ `int`s, so `4 / 3` is integer division; it is kept as the integer
division `(4 / 3 : Int)` here. -/
noncomputable def densityCode (kopt ropt : ℝ) : ℝ :=
  (kopt + 1) / (((4 / 3 : Int) : ℝ) * Real.pi * ropt ^ 3)

/-- Density as the specification states it:
`(kopt + 1) / ((4/3) * pi * ropt^3)` with the exact rational factor 4/3
(the inverse volume of the radius-`ropt` ball times `kopt + 1`). -/
noncomputable def densitySpec (kopt ropt : ℝ) : ℝ :=
  (kopt + 1) / ((4 / 3 : ℝ) * Real.pi * ropt ^ 3)

/-- Sequence of feature-slot writes performed by the tail of
`setDimensionality` (lines 225-301), in source order.  Each block fires
exactly when its dimension name is registered in `m_extraDims` (Density
additionally requires `m_optimal`); `l` is the scaled triple, `sum` the
pre-transform eigenvalue sum, `r` the solver output. -/
noncomputable def writesList (dims : List String) (optimal : Bool)
    (l : ℝ × ℝ × ℝ) (sum : ℝ) (r : SolverResult) (kopt : Nat) (ropt : ℝ) :
    List (String × Option ℝ) :=
  (if "Linearity" ∈ dims then [("Linearity", some (linearity l))] else []) ++
  (if "Planarity" ∈ dims then [("Planarity", some (planarity l))] else []) ++
  (if "Scattering" ∈ dims then [("Scattering", some (scattering l))] else []) ++
  (if "Verticality" ∈ dims then
    [("Verticality", some (verticality l r.v1 r.v2 r.v3))] else []) ++
  (if "Omnivariance" ∈ dims then
    [("Omnivariance", some (omnivariance l))] else []) ++
  (if "Sum" ∈ dims then [("Sum", some sum)] else []) ++
  (if "Eigenentropy" ∈ dims then
    [("Eigenentropy", eigenentropyCode l.1 l.2.1 l.2.2)] else []) ++
  (if "Anisotropy" ∈ dims then [("Anisotropy", some (anisotropy l))] else []) ++
  (if "SurfaceVariation" ∈ dims then
    [("SurfaceVariation", some (surfaceVariation l.2.2 sum))] else []) ++
  (if "DemantkeVerticality" ∈ dims then
    [("DemantkeVerticality", some (demantkeVerticality r.v3))] else []) ++
  (if "Density" ∈ dims ∧ optimal = true then
    [("Density", some (densityCode (kopt : ℝ) ropt))] else [])

/-- Processing of a resolved neighborhood (lines 180-301): run the solver
on the neighborhood's covariance, fail if it did not converge, clamp and
reorder the eigenvalues, capture their sum, fail if the largest is 0,
apply the scale-mode transform, then perform the feature writes. -/
noncomputable def processNeighborhood (cfg : Config) (env : Env)
    (ids : List Nat) : Outcome :=
  let r := env.solve ids
  if r.ok = false then .err .decompFail
  else
    let l := clampDescending r.ev0 r.ev1 r.ev2
    let sum := l.1 + l.2.1 + l.2.2
    if l.1 = 0 then .err .degenerate
    else .ok (writesList cfg.extraDims cfg.optimal
      (scaleTriple cfg.mode sum l) sum r env.kopt env.ropt)

/-- Per-point body `setDimensionality` (lines 153-302).  Neighbor
selection: `m_optimal` takes the OptimalKNN path; otherwise
`m_radiusArg->set()` is evaluated -- undefined (`none`) when `m_radiusArg`
was never assigned.  In radius mode a neighborhood smaller than
`(size_t)m_minK` returns silently with no writes; otherwise the k-nearest
path requests `m_knn + 1` neighbors with stride `m_stride`. -/
noncomputable def setDimensionality (cfg : Config) (env : Env) :
    Option Outcome :=
  if cfg.optimal then
    some (processNeighborhood cfg env (env.knnQuery env.kopt 1))
  else
    match cfg.radiusArg with
    | none => none
    | some true =>
        let ids := env.radiusQuery cfg.radius
        if ids.length < castSizeT cfg.minK then some (.ok [])
        else some (processNeighborhood cfg env ids)
    | some false =>
        some (processNeighborhood cfg env
          (env.knnQuery (castSizeT (cfg.knn + 1)) cfg.stride))

/-- Filter state as `addArgs` (lines 69-80) leaves it for given option
values: every option member is bound through `args.add`, and
`m_featuresArg` is assigned the address of the features `Arg`, but no
statement assigns `m_radiusArg` -- the pointer keeps its indeterminate
initial value, modelled as `radiusArg := none`. -/
def addArgsConfig (knn : Int) (stride : Nat) (radius : ℝ) (minK : Int)
    (mode : String) (optimal : Bool) (dims : List String) : Config :=
  { knn := knn, stride := stride, radius := radius, minK := minK,
    mode := mode, optimal := optimal, radiusArg := none, extraDims := dims }

/-- Start of thread `t`'s point-id range in `filter` (line 147):
`t * nloops / m_threads` in integer arithmetic. -/
def partStart (N T t : Nat) : Nat := t * N / T

/-- End (exclusive) of thread `t`'s point-id range in `filter` (line 147):
`(t+1) == m_threads ? nloops : (t+1) * nloops / m_threads`. -/
def partEnd (N T t : Nat) : Nat := if t + 1 = T then N else (t + 1) * N / T

/-- Point ids processed by thread `t`: the loop
`for (PointId i = start; i < end; i++)` visits
`[partStart, partEnd)` in increasing order. -/
def threadIds (N T t : Nat) : List Nat :=
  List.range' (partStart N T t) (partEnd N T t - partStart N T t)

/-- All point ids processed by the dispatcher, thread ranges concatenated
in thread order `t = 0, ..., T-1`. -/
def dispatchIds (N T : Nat) : List Nat :=
  ((List.range T).map (threadIds N T)).flatten

/-- Per-point outputs of a run: since each thread's body applies the same
pure per-point computation `f` to each id of its range and writes only
that point's own slots, the run is the image of `f` over the processed
ids. -/
def runParallel {α : Type} (f : Nat → α) (N T : Nat) : List α :=
  (dispatchIds N T).map f

/-- Dimension names registered by the `"Dimensionality"` feature-set
preset (lines 102-105). -/
def dimensionalityNames : List String :=
  ["Linearity", "Planarity", "Scattering", "Verticality"]

/-- Dimension names registered for any other feature-set string
(lines 109-114): all eleven features. -/
def allFeatureNames : List String :=
  ["Linearity", "Planarity", "Scattering", "Verticality", "Omnivariance",
   "Sum", "Eigenentropy", "Anisotropy", "SurfaceVariation",
   "DemantkeVerticality", "Density"]

/-- Result of `addDimensions`: the keys inserted into `m_extraDims` and
the value of `m_mode` afterwards. -/
structure DimsResult where
  extraDims : List String
  mode : String
  deriving DecidableEq, Repr

/-- Dimension registration `addDimensions` (lines 82-117): an explicitly
set features list is registered as given (feature_set ignored, no
validation); otherwise the `"Dimensionality"` preset registers four
dimensions and overwrites `m_mode` with `"SQRT"`, and any other
feature-set string registers all eleven dimensions and leaves `m_mode`
unchanged.  `registerOrAssignDim` cannot fail, so no error is possible
here. -/
def addDimensions (featuresSetByUser : Bool) (features : List String)
    (featureSet : String) (mode : String) : DimsResult :=
  if featuresSetByUser then { extraDims := features, mode := mode }
  else if featureSet = "Dimensionality" then
    { extraDims := dimensionalityNames, mode := "SQRT" }
  else { extraDims := allFeatureNames, mode := mode }

/-- Silent-skip condition of lines 165-173: the run is in fixed-radius
mode (not optimal, radius arg assigned and set) and the radius query
returned fewer than `(size_t)m_minK` neighbors. -/
def radiusSkip (cfg : Config) (env : Env) : Prop :=
  cfg.optimal = false ∧ cfg.radiusArg = some true ∧
    (env.radiusQuery cfg.radius).length < castSizeT cfg.minK

/-- Neighbor id list selected by lines 160-177 for a point, in each of the
three selection branches (undefined-pointer aside, this is the list that
reaches `computeCovariance` when no silent skip happens). -/
def idsFor (cfg : Config) (env : Env) : List Nat :=
  if cfg.optimal then env.knnQuery env.kopt 1
  else if cfg.radiusArg = some true then env.radiusQuery cfg.radius
  else env.knnQuery (castSizeT (cfg.knn + 1)) cfg.stride

/-- Solver output on the selected neighborhood. -/
def solvedAt (cfg : Config) (env : Env) : SolverResult :=
  env.solve (idsFor cfg env)

/-- Clamped, reordered (descending) eigenvalue triple of the selected
neighborhood, before any scale-mode transform. -/
noncomputable def clampedAt (cfg : Config) (env : Env) : ℝ × ℝ × ℝ :=
  clampDescending (solvedAt cfg env).ev0 (solvedAt cfg env).ev1
    (solvedAt cfg env).ev2

/-- Pre-transform eigenvalue sum captured at line 193, before the
`"SQRT"` / `"NORM"` transforms run. -/
noncomputable def preSum (cfg : Config) (env : Env) : ℝ :=
  (clampedAt cfg env).1 + (clampedAt cfg env).2.1 + (clampedAt cfg env).2.2

/-- Example configuration in fixed-radius mode (radius arg assigned and
set), used to exercise the insufficient-neighborhood skip. -/
def cfgRadius : Config :=
  { knn := 10, stride := 1, radius := 2, minK := 3, mode := "",
    optimal := false, radiusArg := some true,
    extraDims := dimensionalityNames }

/-- Example configuration in precomputed (optimal) mode with all eleven
features registered and `"NORM"` scaling. -/
def cfgOpt : Config :=
  { knn := 10, stride := 1, radius := 0, minK := 3, mode := "NORM",
    optimal := true, radiusArg := none, extraDims := allFeatureNames }

/-- Example environment whose eigen solver reports non-convergence. -/
noncomputable def envFail : Env :=
  { kopt := 5, ropt := 1,
    knnQuery := fun _ _ => [0, 1, 2, 3, 4, 5],
    radiusQuery := fun _ => [0, 1],
    solve := fun _ =>
      { ok := false, ev0 := 0, ev1 := 0, ev2 := 1,
        v1 := (1, 0, 0), v2 := (0, 1, 0), v3 := (0, 0, 1) } }

/-- Example environment whose eigen solver converges with ascending
eigenvalues `(1, 2, 4)`. -/
noncomputable def envGood : Env :=
  { kopt := 5, ropt := 1,
    knnQuery := fun _ _ => [0, 1, 2, 3, 4, 5],
    radiusQuery := fun _ => [0, 1],
    solve := fun _ =>
      { ok := true, ev0 := 1, ev1 := 2, ev2 := 4,
        v1 := (1, 0, 0), v2 := (0, 1, 0), v3 := (0, 0, 1) } }


/-- C1: the claim asserts that with `optimized=false` the neighbor-mode
test (`m_radiusArg->set()`) is well defined on every configuration and
selects the radius path exactly when the radius option was set.  In the
source, `addArgs` never assigns `m_radiusArg`, so on every
`optimized=false` run the test dereferences an indeterminate pointer: the
per-point body has no defined outcome (modelled as `none`), for every
choice of the remaining option values and every environment. -/
theorem c1_mode_selection_undefined_after_addArgs (knn : Int) (stride : Nat)
    (radius : ℝ) (minK : Int) (mode : String) (dims : List String)
    (env : Env) :
    setDimensionality (addArgsConfig knn stride radius minK mode false dims)
      env = none := by
  simp [setDimensionality, addArgsConfig]

/-- C2: the source writes Density as
`(kopt + 1) / ((4 / 3) * pi * pow(ropt, 3))` where `4 / 3` is C++ integer
division, equal to 1; at `kopt = 1`, `ropt = 1` the written value is
`2 / pi`, while the claimed formula `(kopt+1) / ((4/3)*pi*ropt^3)` gives
`3 / (2*pi)`, and the two differ. -/
theorem c2_density_missing_four_thirds :
    densityCode 1 1 = 2 / Real.pi ∧
    densitySpec 1 1 = 3 / (2 * Real.pi) ∧
    densityCode 1 1 ≠ densitySpec 1 1 := by
  have hpi := Real.pi_pos
  refine ⟨?_, ?_, ?_⟩
  · norm_num [densityCode]
  · rw [densitySpec]
    rw [div_eq_div_iff (by positivity) (by positivity)]
    ring
  · norm_num [densityCode, densitySpec]
    rw [div_eq_div_iff (by positivity) (by positivity)]
    intro h
    nlinarith [hpi]


/-- C3: the claim asserts the Eigenentropy computation guards
`li * ln(li)` as 0 when `li = 0`.  The source block (lines 267-273) has no
such guard: with spectrum `(1, 1, 0)` the written value is undefined
(`0 * log(0)` is NaN, modelled `none`), while the guarded sum the claim
describes is the finite value 0. -/
theorem c3_eigenentropy_unguarded :
    eigenentropyCode 1 1 0 = none ∧ eigenentropyGuarded 1 1 0 = 0 := by
  constructor
  · simp [eigenentropyCode, xLogX]
  · simp [eigenentropyGuarded, guardedXLogX]

/-- C10: with no explicit features list, any feature_set string other
than `"Dimensionality"` falls into the catch-all branch of
`addDimensions`: no validation or error, all eleven feature dimensions
registered, and `m_mode` left exactly as configured (the `"Dimensionality"`
branch alone overwrites it with `"SQRT"`). -/
theorem c10_other_feature_sets_register_all (features : List String)
    (fs mode : String) (hfs : fs ≠ "Dimensionality") :
    addDimensions false features fs mode =
      { extraDims := allFeatureNames, mode := mode } := by
  simp [addDimensions, hfs]

/-- Witness for C10 at the concrete feature_set `"AllFeatures"` and
configured mode `"NORM"`. -/
theorem c10_other_feature_sets_register_all_witness :
    ("AllFeatures" : String) ≠ "Dimensionality" ∧
    addDimensions false [] "AllFeatures" "NORM" =
      { extraDims := allFeatureNames, mode := "NORM" } :=
  ⟨by decide, c10_other_feature_sets_register_all [] "AllFeatures" "NORM"
    (by decide)⟩

/-- C6: in fixed-radius mode (optimal off, radius arg assigned and set),
a radius query returning fewer than `(size_t)m_minK` neighbors makes
`setDimensionality` return silently: outcome `ok` with an empty write
list -- no error and every feature slot of the point left untouched. -/
theorem c6_insufficient_neighborhood_skips (cfg : Config) (env : Env)
    (hopt : cfg.optimal = false) (hra : cfg.radiusArg = some true)
    (hcnt : (env.radiusQuery cfg.radius).length < castSizeT cfg.minK) :
    setDimensionality cfg env = some (.ok []) := by
  simp [setDimensionality, hopt, hra, hcnt]

/-- Witness for C6: radius mode with `min_k = 3` and a 2-point
neighborhood leaves the point untouched. -/
theorem c6_insufficient_neighborhood_skips_witness :
    cfgRadius.optimal = false ∧ cfgRadius.radiusArg = some true ∧
    (envFail.radiusQuery cfgRadius.radius).length < castSizeT cfgRadius.minK ∧
    setDimensionality cfgRadius envFail = some (.ok []) :=
  ⟨rfl, rfl, by decide,
    c6_insufficient_neighborhood_skips cfgRadius envFail rfl rfl (by decide)⟩

/-- C8 counterexample: the solver triple `(0, 0, 1)` (ascending) is
reordered and clamped to `(1, 0, 0)`, which is not strictly decreasing
(`λ1 > λ2` fails), refuting the claim's `λ0 > λ1 > λ2`. -/
theorem c8_not_strictly_decreasing :
    clampDescending 0 0 1 = ((1 : ℝ), 0, 0) ∧
    ¬ ((clampDescending 0 0 1).1 > (clampDescending 0 0 1).2.1 ∧
       (clampDescending 0 0 1).2.1 > (clampDescending 0 0 1).2.2) := by
  constructor
  · simp [clampDescending]
  · simp [clampDescending]

/-- C8 amended: for every ascending solver triple, the reordering and
clamping of lines 190-192 produce a weakly decreasing nonnegative triple
`λ0 ≥ λ1 ≥ λ2 ≥ 0` -- the invariant every feature formula consumes. -/
theorem c8_clamped_weakly_decreasing (ev0 ev1 ev2 : ℝ)
    (h01 : ev0 ≤ ev1) (h12 : ev1 ≤ ev2) :
    (clampDescending ev0 ev1 ev2).1 ≥ (clampDescending ev0 ev1 ev2).2.1 ∧
    (clampDescending ev0 ev1 ev2).2.1 ≥ (clampDescending ev0 ev1 ev2).2.2 ∧
    (clampDescending ev0 ev1 ev2).2.2 ≥ 0 := by
  refine ⟨max_le_max h12 le_rfl, max_le_max h01 le_rfl, le_max_right _ _⟩

/-- Witness for the amended C8 at the ascending triple `(-1, 0, 2)`:
clamping yields a weakly decreasing nonnegative triple. -/
theorem c8_clamped_weakly_decreasing_witness :
    ((-1 : ℝ) ≤ 0 ∧ (0 : ℝ) ≤ 2) ∧
    ((clampDescending (-1) 0 2).1 ≥ (clampDescending (-1) 0 2).2.1 ∧
     (clampDescending (-1) 0 2).2.1 ≥ (clampDescending (-1) 0 2).2.2 ∧
     (clampDescending (-1) 0 2).2.2 ≥ 0) :=
  ⟨⟨by norm_num, by norm_num⟩,
    c8_clamped_weakly_decreasing (-1) 0 2 (by norm_num) (by norm_num)⟩


theorem partStart_mono (N T t : Nat) : partStart N T t ≤ partStart N T (t + 1) :=
  Nat.div_le_div_right (Nat.mul_le_mul_right N (Nat.le_succ t))

theorem partStart_zero (N T : Nat) : partStart N T 0 = 0 := by
  simp [partStart]

theorem partStart_top (N T : Nat) (hT : 0 < T) : partStart N T T = N := by
  simp [partStart]
  exact Nat.mul_div_cancel_left N hT

theorem partEnd_eq_next_start (N T t : Nat) (hT : 0 < T) :
    partEnd N T t = partStart N T (t + 1) := by
  unfold partEnd partStart
  split
  · rename_i h
    rw [h]
    exact (Nat.mul_div_cancel_left N hT).symm
  · rfl

theorem dispatch_ranges_accum (N T : Nat) (hT : 0 < T) (k : Nat) :
    ((List.range k).map (threadIds N T)).flatten =
      List.range' 0 (partStart N T k) := by
  induction k with
  | zero => simp [partStart_zero]
  | succ k ih =>
      rw [List.range_succ, List.map_append, List.flatten_append, ih]
      simp only [List.map_cons, List.map_nil, List.flatten_cons,
        List.flatten_nil, List.append_nil]
      rw [threadIds, partEnd_eq_next_start N T k hT]
      have hmono := partStart_mono N T k
      have := List.range'_append 0 (partStart N T k)
        (partStart N T (k + 1) - partStart N T k) 1
      simp only [Nat.one_mul, Nat.zero_add] at this
      rw [this, Nat.sub_add_cancel hmono]

/-- C9: for every point count and thread count `T ≥ 1`, the integer
thread ranges `[t*N/T, (t+1)*N/T)` (last range ending at `N`) computed by
`filter` concatenate, in thread order, to exactly the id list
`0, 1, ..., N-1`: they are contiguous, pairwise disjoint and cover
`[0, N)` with each id processed once; consequently applying the pure
per-point computation over the `T` ranges produces the same per-point
outputs as the sequential single-thread run. -/
theorem c9_partition_exact {α : Type} (f : Nat → α) (N T : Nat) (hT : 1 ≤ T) :
    dispatchIds N T = List.range N ∧
    runParallel f N T = runParallel f N 1 := by
  have h1 : dispatchIds N T = List.range N := by
    rw [dispatchIds, dispatch_ranges_accum N T hT T, partStart_top N T hT,
      List.range_eq_range']
  have h2 : dispatchIds N 1 = List.range N := by
    rw [dispatchIds, dispatch_ranges_accum N 1 one_pos 1, partStart_top N 1 one_pos,
      List.range_eq_range']
  exact ⟨h1, by rw [runParallel, runParallel, h1, h2]⟩

/-- Witness for C9 at `N = 5`, `T = 2`: the two ranges are `[0,2)` and
`[2,5)`, concatenating to `0..4`, and the parallel map equals the
sequential one. -/
theorem c9_partition_exact_witness :
    1 ≤ 2 ∧ dispatchIds 5 2 = List.range 5 ∧
    runParallel (fun i => i * i) 5 2 = runParallel (fun i => i * i) 5 1 :=
  ⟨by decide, (c9_partition_exact (fun i => i * i) 5 2 (by decide)).1,
    (c9_partition_exact (fun i => i * i) 5 2 (by decide)).2⟩


theorem processNeighborhood_err_iff (cfg : Config) (env : Env)
    (ids : List Nat) (e : PErr) :
    processNeighborhood cfg env ids = .err e ↔
      (((env.solve ids).ok = false ∧ e = .decompFail) ∨
       ((env.solve ids).ok = true ∧ max (env.solve ids).ev2 0 = 0 ∧
         e = .degenerate)) := by
  unfold processNeighborhood
  rcases hok : (env.solve ids).ok with _ | _
  · simp [clampDescending, hok, eq_comm]
  · simp only [clampDescending, hok, Bool.true_eq_false, if_false,
      Bool.false_eq_true, false_and, false_or, true_and, if_neg]
    split
    · rename_i hl
      simp [hl, eq_comm]
    · rename_i hl
      simp [hl]


theorem setDim_err_iff (cfg : Config) (env : Env) (e : PErr)
    (hdef : cfg.optimal = true ∨ cfg.radiusArg.isSome = true) :
    setDimensionality cfg env = some (.err e) ↔
      (¬ radiusSkip cfg env ∧
        (((solvedAt cfg env).ok = false ∧ e = .decompFail) ∨
         ((solvedAt cfg env).ok = true ∧ max (solvedAt cfg env).ev2 0 = 0 ∧
           e = .degenerate))) := by
  rcases hopt : cfg.optimal with _ | _
  · rcases hra : cfg.radiusArg with _ | b
    · rcases hdef with h | h
      · rw [hopt] at h; simp at h
      · rw [hra] at h; simp at h
    · rcases b with _ | _
      · simp [setDimensionality, hopt, hra, radiusSkip, solvedAt, idsFor,
          processNeighborhood_err_iff]
      · by_cases hcnt :
          (env.radiusQuery cfg.radius).length < castSizeT cfg.minK
        · simp [setDimensionality, hopt, hra, hcnt, radiusSkip]
        · simp [setDimensionality, hopt, hra, hcnt, radiusSkip, solvedAt,
            idsFor, processNeighborhood_err_iff]
  · simp [setDimensionality, hopt, radiusSkip, solvedAt, idsFor,
      processNeighborhood_err_iff]

/-- C7: whenever the neighbor-mode test is defined (optimal mode, or the
radius arg pointer assigned), per-point processing yields a fatal error in
exactly two cases -- the solver did not converge (`decompFail`), or the
solver converged and the largest clamped eigenvalue is 0 (`degenerate`) --
and never when the radius path skipped the point; an error outcome carries
no feature writes by construction of `Outcome`.  Moreover the error
behavior is identical under every scale-mode string: the degenerate check
runs before any scale transform, so the error does not depend on
`m_mode`. -/
theorem c7_fatal_error_cases (cfg : Config) (env : Env) (e : PErr)
    (hdef : cfg.optimal = true ∨ cfg.radiusArg.isSome = true) :
    (setDimensionality cfg env = some (.err e) ↔
      (¬ radiusSkip cfg env ∧
        (((solvedAt cfg env).ok = false ∧ e = .decompFail) ∨
         ((solvedAt cfg env).ok = true ∧ max (solvedAt cfg env).ev2 0 = 0 ∧
           e = .degenerate)))) ∧
    (∀ m : String,
      setDimensionality { cfg with mode := m } env = some (.err e) ↔
        setDimensionality cfg env = some (.err e)) := by
  refine ⟨setDim_err_iff cfg env e hdef, fun m => ?_⟩
  rw [setDim_err_iff { cfg with mode := m } env e hdef,
    setDim_err_iff cfg env e hdef]
  rfl

/-- Witness for C7: in optimal mode with a non-converging solver, the
characterization applies; its right side is satisfied by
`e = decompFail`. -/
theorem c7_fatal_error_cases_witness :
    (cfgOpt.optimal = true ∨ cfgOpt.radiusArg.isSome = true) ∧
    ((setDimensionality cfgOpt envFail = some (.err .decompFail) ↔
      (¬ radiusSkip cfgOpt envFail ∧
        (((solvedAt cfgOpt envFail).ok = false ∧
            (PErr.decompFail : PErr) = .decompFail) ∨
         ((solvedAt cfgOpt envFail).ok = true ∧
           max (solvedAt cfgOpt envFail).ev2 0 = 0 ∧
           (PErr.decompFail : PErr) = .degenerate)))) ∧
     (∀ m : String,
       setDimensionality { cfgOpt with mode := m } envFail =
           some (.err .decompFail) ↔
         setDimensionality cfgOpt envFail = some (.err .decompFail))) :=
  ⟨Or.inl rfl, c7_fatal_error_cases cfgOpt envFail .decompFail (Or.inl rfl)⟩


theorem lookup_cond_skip {key k : String} (hne : (key == k) = false)
    (c : Prop) [Decidable c] (v : Option ℝ)
    (rest : List (String × Option ℝ)) :
    ((if c then [(k, v)] else []) ++ rest).lookup key = rest.lookup key := by
  split
  · simp [List.lookup_cons, hne]
  · simp

theorem lookup_cond_hit {k : String} (c : Prop) [Decidable c] (hc : c)
    (v : Option ℝ) (rest : List (String × Option ℝ)) :
    ((if c then [(k, v)] else []) ++ rest).lookup k = some v := by
  rw [if_pos hc]
  simp [List.lookup_cons]

theorem writesList_lookup_sum (dims : List String) (optimal : Bool)
    (l : ℝ × ℝ × ℝ) (sum : ℝ) (r : SolverResult) (kopt : Nat) (ropt : ℝ)
    (hmem : "Sum" ∈ dims) :
    (writesList dims optimal l sum r kopt ropt).lookup "Sum" =
      some (some sum) := by
  rw [writesList]
  simp only [List.append_assoc]
  rw [lookup_cond_skip (by decide), lookup_cond_skip (by decide),
    lookup_cond_skip (by decide), lookup_cond_skip (by decide),
    lookup_cond_skip (by decide), lookup_cond_hit _ hmem]

theorem writesList_lookup_surfvar (dims : List String) (optimal : Bool)
    (l : ℝ × ℝ × ℝ) (sum : ℝ) (r : SolverResult) (kopt : Nat) (ropt : ℝ)
    (hmem : "SurfaceVariation" ∈ dims) :
    (writesList dims optimal l sum r kopt ropt).lookup "SurfaceVariation" =
      some (some (surfaceVariation l.2.2 sum)) := by
  rw [writesList]
  simp only [List.append_assoc]
  rw [lookup_cond_skip (by decide), lookup_cond_skip (by decide),
    lookup_cond_skip (by decide), lookup_cond_skip (by decide),
    lookup_cond_skip (by decide), lookup_cond_skip (by decide),
    lookup_cond_skip (by decide), lookup_cond_skip (by decide),
    lookup_cond_hit _ hmem]


theorem setDim_ok_eq (cfg : Config) (env : Env)
    (hdef : cfg.optimal = true ∨ cfg.radiusArg.isSome = true)
    (hns : ¬ radiusSkip cfg env) :
    setDimensionality cfg env =
      some (processNeighborhood cfg env (idsFor cfg env)) := by
  rcases hopt : cfg.optimal with _ | _
  · rcases hra : cfg.radiusArg with _ | b
    · rcases hdef with h | h
      · rw [hopt] at h; simp at h
      · rw [hra] at h; simp at h
    · rcases b with _ | _
      · simp [setDimensionality, hopt, hra, idsFor]
      · have hcnt :
            ¬ (env.radiusQuery cfg.radius).length < castSizeT cfg.minK := by
          intro h
          exact hns ⟨hopt, hra, h⟩
        simp [setDimensionality, hopt, hra, hcnt, idsFor]
  · simp [setDimensionality, hopt, idsFor]

/-- C4: whenever a point is actually processed (mode test defined, no
radius skip, solver converged, largest clamped eigenvalue nonzero), the
write list is produced from `preSum` -- the sum of the clamped triple
captured before any scale transform -- for every scale-mode string:
the `Sum` slot receives exactly `preSum`, the `SurfaceVariation` slot
receives the scaled third eigenvalue divided by `preSum`, and under
`"NORM"` the triple itself is divided componentwise by `preSum`.  The sum
is never recomputed from the scaled triple. -/
theorem c4_sum_captured_before_transform (cfg : Config) (env : Env)
    (hdef : cfg.optimal = true ∨ cfg.radiusArg.isSome = true)
    (hns : ¬ radiusSkip cfg env)
    (hok : (solvedAt cfg env).ok = true)
    (hl0 : (clampedAt cfg env).1 ≠ 0) :
    setDimensionality cfg env =
      some (.ok (writesList cfg.extraDims cfg.optimal
        (scaleTriple cfg.mode (preSum cfg env) (clampedAt cfg env))
        (preSum cfg env) (solvedAt cfg env) env.kopt env.ropt)) ∧
    ("Sum" ∈ cfg.extraDims →
      (writesList cfg.extraDims cfg.optimal
        (scaleTriple cfg.mode (preSum cfg env) (clampedAt cfg env))
        (preSum cfg env) (solvedAt cfg env) env.kopt env.ropt).lookup
          "Sum" = some (some (preSum cfg env))) ∧
    ("SurfaceVariation" ∈ cfg.extraDims →
      (writesList cfg.extraDims cfg.optimal
        (scaleTriple cfg.mode (preSum cfg env) (clampedAt cfg env))
        (preSum cfg env) (solvedAt cfg env) env.kopt env.ropt).lookup
          "SurfaceVariation" =
        some (some (surfaceVariation
          (scaleTriple cfg.mode (preSum cfg env) (clampedAt cfg env)).2.2
          (preSum cfg env)))) ∧
    (cfg.mode = "NORM" →
      scaleTriple cfg.mode (preSum cfg env) (clampedAt cfg env) =
        ((clampedAt cfg env).1 / preSum cfg env,
         (clampedAt cfg env).2.1 / preSum cfg env,
         (clampedAt cfg env).2.2 / preSum cfg env)) := by
  have e1 : env.solve (idsFor cfg env) = solvedAt cfg env := rfl
  have e2 : clampDescending (solvedAt cfg env).ev0 (solvedAt cfg env).ev1
      (solvedAt cfg env).ev2 = clampedAt cfg env := rfl
  have e3 : (clampedAt cfg env).1 + (clampedAt cfg env).2.1 +
      (clampedAt cfg env).2.2 = preSum cfg env := rfl
  refine ⟨?_, fun hm => writesList_lookup_sum _ _ _ _ _ _ _ hm,
    fun hm => writesList_lookup_surfvar _ _ _ _ _ _ _ hm, fun hm => ?_⟩
  · rw [setDim_ok_eq cfg env hdef hns]
    unfold processNeighborhood
    rw [e1, if_neg (by simp [hok]), e2]
    simp only [e3]
    rw [if_neg hl0]
  · rw [hm]
    simp [scaleTriple]


/-- Witness for C4 in optimal mode with solver output `(1, 2, 4)` and
`"NORM"` scaling: the theorem applies, and the `Sum` slot receives the
pre-transform sum. -/
theorem c4_sum_captured_before_transform_witness :
    (cfgOpt.optimal = true ∨ cfgOpt.radiusArg.isSome = true) ∧
    ¬ radiusSkip cfgOpt envGood ∧
    (solvedAt cfgOpt envGood).ok = true ∧
    (clampedAt cfgOpt envGood).1 ≠ 0 ∧
    (writesList cfgOpt.extraDims cfgOpt.optimal
      (scaleTriple cfgOpt.mode (preSum cfgOpt envGood)
        (clampedAt cfgOpt envGood))
      (preSum cfgOpt envGood) (solvedAt cfgOpt envGood) envGood.kopt
      envGood.ropt).lookup "Sum" = some (some (preSum cfgOpt envGood)) := by
  have hns : ¬ radiusSkip cfgOpt envGood := by simp [radiusSkip, cfgOpt]
  have hok : (solvedAt cfgOpt envGood).ok = true := rfl
  have hl0 : (clampedAt cfgOpt envGood).1 ≠ 0 := by
    norm_num [clampedAt, clampDescending, solvedAt, idsFor, envGood, cfgOpt,
      max_def]
  exact ⟨Or.inl rfl, hns, hok, hl0,
    (c4_sum_captured_before_transform cfgOpt envGood (Or.inl rfl) hns hok
      hl0).2.1 (by decide)⟩


theorem ratio_features_bounds {l : ℝ × ℝ × ℝ} (h01 : l.2.1 ≤ l.1)
    (h12 : l.2.2 ≤ l.2.1) (h2 : 0 ≤ l.2.2) (h0 : 0 < l.1) :
    (0 ≤ linearity l ∧ linearity l ≤ 1) ∧
    (0 ≤ planarity l ∧ planarity l ≤ 1) ∧
    (0 ≤ scattering l ∧ scattering l ≤ 1) ∧
    (0 ≤ anisotropy l ∧ anisotropy l ≤ 1) := by
  unfold linearity planarity scattering anisotropy
  refine ⟨⟨?_, ?_⟩, ⟨?_, ?_⟩, ⟨?_, ?_⟩, ⟨?_, ?_⟩⟩
  · exact div_nonneg (by linarith) h0.le
  · exact (div_le_one h0).2 (by linarith)
  · exact div_nonneg (by linarith) h0.le
  · exact (div_le_one h0).2 (by linarith)
  · exact div_nonneg (by linarith) h0.le
  · exact (div_le_one h0).2 (by linarith)
  · exact div_nonneg (by linarith) h0.le
  · exact (div_le_one h0).2 (by linarith)

theorem scaleTriple_valid (mode : String) {l : ℝ × ℝ × ℝ}
    (h01 : l.2.1 ≤ l.1) (h12 : l.2.2 ≤ l.2.1) (h2 : 0 ≤ l.2.2)
    (h0 : 0 < l.1) :
    (scaleTriple mode (l.1 + l.2.1 + l.2.2) l).2.1 ≤
      (scaleTriple mode (l.1 + l.2.1 + l.2.2) l).1 ∧
    (scaleTriple mode (l.1 + l.2.1 + l.2.2) l).2.2 ≤
      (scaleTriple mode (l.1 + l.2.1 + l.2.2) l).2.1 ∧
    0 ≤ (scaleTriple mode (l.1 + l.2.1 + l.2.2) l).2.2 ∧
    0 < (scaleTriple mode (l.1 + l.2.1 + l.2.2) l).1 := by
  have hsum : 0 < l.1 + l.2.1 + l.2.2 := by linarith
  unfold scaleTriple
  split
  · exact ⟨Real.sqrt_le_sqrt h01, Real.sqrt_le_sqrt h12,
      Real.sqrt_nonneg _, Real.sqrt_pos.2 h0⟩
  · split
    · refine ⟨?_, ?_, ?_, ?_⟩
      · exact (div_le_div_iff_of_pos_right hsum).2 h01
      · exact (div_le_div_iff_of_pos_right hsum).2 h12
      · exact div_nonneg h2 hsum.le
      · exact div_pos h0 hsum
    · exact ⟨h01, h12, h2, h0⟩

/-- C5 counterexample: the spectrum `(1/10, 1/10, 1/10)` is valid
(`λ0 ≥ λ1 ≥ λ2 ≥ 0`, `λ0 > 0`), yet under `"NORM"` scaling the written
SurfaceVariation -- scaled third eigenvalue over the pre-transform sum --
equals `10/9 > 1`, refuting the claim that all five ratio features lie in
`[0, 1]` under every scale mode. -/
theorem c5_surfvar_exceeds_one_under_norm :
    ((1 : ℝ) / 10 ≤ 1 / 10 ∧ (1 : ℝ) / 10 ≤ 1 / 10 ∧ (0 : ℝ) ≤ 1 / 10 ∧
      (0 : ℝ) < 1 / 10) ∧
    surfaceVariation
      (scaleTriple "NORM" (1 / 10 + 1 / 10 + 1 / 10)
        ((1 : ℝ) / 10, (1 : ℝ) / 10, (1 : ℝ) / 10)).2.2
      (1 / 10 + 1 / 10 + 1 / 10) = 10 / 9 ∧
    ¬ surfaceVariation
      (scaleTriple "NORM" (1 / 10 + 1 / 10 + 1 / 10)
        ((1 : ℝ) / 10, (1 : ℝ) / 10, (1 : ℝ) / 10)).2.2
      (1 / 10 + 1 / 10 + 1 / 10) ≤ 1 := by
  have hsc : scaleTriple "NORM" (1 / 10 + 1 / 10 + 1 / 10)
      ((1 : ℝ) / 10, (1 : ℝ) / 10, (1 : ℝ) / 10) =
      ((1 : ℝ) / 3, (1 : ℝ) / 3, (1 : ℝ) / 3) := by
    rw [scaleTriple, if_neg (by decide), if_pos rfl]
    norm_num
  refine ⟨⟨le_refl _, le_refl _, by norm_num, by norm_num⟩, ?_, ?_⟩
  · rw [hsc]
    norm_num [surfaceVariation]
  · rw [hsc]
    norm_num [surfaceVariation]

/-- C5 amended: for every valid spectrum (`λ0 ≥ λ1 ≥ λ2 ≥ 0`, `λ0 > 0`)
and every scale-mode string, Linearity, Planarity, Scattering and
Anisotropy of the scaled triple lie in `[0, 1]`; SurfaceVariation lies in
`[0, 1]` under Raw scaling (any mode string other than `"SQRT"` and
`"NORM"`); and Linearity + Planarity + Scattering = 1 under Raw scaling.
(SurfaceVariation can exceed 1 under `"SQRT"` or `"NORM"`.) -/
theorem c5_shape_features_bounded (l0 l1 l2 : ℝ) (mode : String)
    (h01 : l1 ≤ l0) (h12 : l2 ≤ l1) (h2 : 0 ≤ l2) (h0 : 0 < l0) :
    ((0 ≤ linearity (scaleTriple mode (l0 + l1 + l2) (l0, l1, l2)) ∧
       linearity (scaleTriple mode (l0 + l1 + l2) (l0, l1, l2)) ≤ 1) ∧
     (0 ≤ planarity (scaleTriple mode (l0 + l1 + l2) (l0, l1, l2)) ∧
       planarity (scaleTriple mode (l0 + l1 + l2) (l0, l1, l2)) ≤ 1) ∧
     (0 ≤ scattering (scaleTriple mode (l0 + l1 + l2) (l0, l1, l2)) ∧
       scattering (scaleTriple mode (l0 + l1 + l2) (l0, l1, l2)) ≤ 1) ∧
     (0 ≤ anisotropy (scaleTriple mode (l0 + l1 + l2) (l0, l1, l2)) ∧
       anisotropy (scaleTriple mode (l0 + l1 + l2) (l0, l1, l2)) ≤ 1)) ∧
    (mode ≠ "SQRT" ∧ mode ≠ "NORM" →
      0 ≤ surfaceVariation
          (scaleTriple mode (l0 + l1 + l2) (l0, l1, l2)).2.2
          (l0 + l1 + l2) ∧
      surfaceVariation (scaleTriple mode (l0 + l1 + l2) (l0, l1, l2)).2.2
          (l0 + l1 + l2) ≤ 1) ∧
    (mode ≠ "SQRT" ∧ mode ≠ "NORM" →
      linearity (scaleTriple mode (l0 + l1 + l2) (l0, l1, l2)) +
        planarity (scaleTriple mode (l0 + l1 + l2) (l0, l1, l2)) +
        scattering (scaleTriple mode (l0 + l1 + l2) (l0, l1, l2)) = 1) := by
  have hv := scaleTriple_valid mode (l := (l0, l1, l2)) h01 h12 h2 h0
  have hsum : 0 < l0 + l1 + l2 := by
    have : (0 : ℝ) ≤ l1 := le_trans h2 h12
    linarith
  refine ⟨ratio_features_bounds hv.1 hv.2.1 hv.2.2.1 hv.2.2.2, ?_, ?_⟩
  · rintro ⟨hs, hn⟩
    have hraw : scaleTriple mode (l0 + l1 + l2) ((l0 : ℝ), l1, l2) =
        (l0, l1, l2) := by
      simp [scaleTriple, hs, hn]
    rw [hraw]
    unfold surfaceVariation
    exact ⟨div_nonneg h2 hsum.le, (div_le_one hsum).2 (by linarith)⟩
  · rintro ⟨hs, hn⟩
    have hraw : scaleTriple mode (l0 + l1 + l2) ((l0 : ℝ), l1, l2) =
        (l0, l1, l2) := by
      simp [scaleTriple, hs, hn]
    rw [hraw]
    unfold linearity planarity scattering
    field_simp

/-- Witness for the amended C5 at the valid spectrum `(4, 1, 0)` with the
Raw mode string `"Raw"`. -/
theorem c5_shape_features_bounded_witness :
    ((1 : ℝ) ≤ 4 ∧ (0 : ℝ) ≤ 1 ∧ (0 : ℝ) ≤ 0 ∧ (0 : ℝ) < 4) ∧
    ((0 ≤ linearity (scaleTriple "Raw" (4 + 1 + 0) ((4 : ℝ), 1, 0)) ∧
       linearity (scaleTriple "Raw" (4 + 1 + 0) ((4 : ℝ), 1, 0)) ≤ 1) ∧
     (0 ≤ planarity (scaleTriple "Raw" (4 + 1 + 0) ((4 : ℝ), 1, 0)) ∧
       planarity (scaleTriple "Raw" (4 + 1 + 0) ((4 : ℝ), 1, 0)) ≤ 1) ∧
     (0 ≤ scattering (scaleTriple "Raw" (4 + 1 + 0) ((4 : ℝ), 1, 0)) ∧
       scattering (scaleTriple "Raw" (4 + 1 + 0) ((4 : ℝ), 1, 0)) ≤ 1) ∧
     (0 ≤ anisotropy (scaleTriple "Raw" (4 + 1 + 0) ((4 : ℝ), 1, 0)) ∧
       anisotropy (scaleTriple "Raw" (4 + 1 + 0) ((4 : ℝ), 1, 0)) ≤ 1)) ∧
    (("Raw" : String) ≠ "SQRT" ∧ ("Raw" : String) ≠ "NORM" →
      0 ≤ surfaceVariation
          (scaleTriple "Raw" (4 + 1 + 0) ((4 : ℝ), 1, 0)).2.2 (4 + 1 + 0) ∧
      surfaceVariation
          (scaleTriple "Raw" (4 + 1 + 0) ((4 : ℝ), 1, 0)).2.2 (4 + 1 + 0)
        ≤ 1) ∧
    (("Raw" : String) ≠ "SQRT" ∧ ("Raw" : String) ≠ "NORM" →
      linearity (scaleTriple "Raw" (4 + 1 + 0) ((4 : ℝ), 1, 0)) +
        planarity (scaleTriple "Raw" (4 + 1 + 0) ((4 : ℝ), 1, 0)) +
        scattering (scaleTriple "Raw" (4 + 1 + 0) ((4 : ℝ), 1, 0)) = 1) :=
  ⟨⟨by norm_num, by norm_num, le_refl _, by norm_num⟩,
    c5_shape_features_bounded 4 1 0 "Raw" (by norm_num) (by norm_num)
      (le_refl _) (by norm_num)⟩

end CovFeat
